import Mathlib

/-!
Verification of the kuzco copy-on-write handle protocol and its transactional
wrapper, as used by this repository.

Embedding choices:
* A `Payload` (an `impl::Data<T>`: a `shared_ptr<const T>` plus a quick-access
  raw pointer kept in sync with it) is modelled as an identity: an index into
  an explicit heap `Store`.  An empty `Data` (null `qdata`) is `none`.
  The payload store itself (`impl/Data.hpp`) is not under `src/`; per spec
  section 4.1 it provides `construct` (a brand-new instance) and sharing of
  an existing instance, with in-place mutation possible only through the raw
  pointer held by a handle.  `Store.construct` allocates a fresh cell and
  `Store.writeAt` is the in-place write through such a raw pointer.
* `BasicNode<T>` (src/unnamed/part_000, lines 58-112) is a payload reference
  `m_data` plus the uniqueness flag `m_unique`.  `Node<T>` and `OptNode<T>`
  share this state; their differing operations live in the `Node` and
  `OptNode` namespaces.
* C++ member functions that mutate `*this` (or an argument passed by
  reference) become functions returning the updated value(s); functions that
  may allocate thread a `Store`.
-/

namespace Kuzco

/-- Modelled from the spec: the Payload Store of spec section 4.1 (the
reference-counted `impl::Data<T>` primitive, whose header `impl/Data.hpp` is
not under `src/`).  The heap is a list of payload cells; a payload identity is
an index into it.  Reference counting and freeing are not modelled (nothing is
ever reused), which is sound for identity and value observations. -/
structure Store (α : Type) where
  heap : List α
deriving DecidableEq, Repr

/-- Allocation of a brand-new payload instance (`impl::Data<T>::construct`):
appends a fresh cell and returns its identity. -/
def Store.construct {α : Type} (s : Store α) (v : α) : Store α × Nat :=
  (⟨s.heap ++ [v]⟩, s.heap.length)

/-- Dereference a payload identity (reading through `qdata`). -/
def Store.read {α : Type} (s : Store α) (i : Nat) : Option α :=
  s.heap[i]?

/-- In-place mutation through a raw `T*` obtained from the write accessor. -/
def Store.writeAt {α : Type} (s : Store α) (i : Nat) (v : α) : Store α :=
  ⟨s.heap.set i v⟩

/-- Source: `impl::BasicNode<T>` state (src/unnamed/part_000 lines 54, 82): a payload
reference `m_data` (none = empty `Data`) and the uniqueness flag `m_unique`
(initialised `true`: "an object is unique when initially constructed"). -/
structure BasicNode where
  m_data : Option Nat
  m_unique : Bool
deriving DecidableEq, Repr

/-- Source: `BasicNode::unique` (line 72): reads the flag — explicitly *not* the
shared-pointer use count (comment at lines 74-79). -/
def BasicNode.unique (n : BasicNode) : Bool :=
  n.m_unique

/-- Source: `BasicNode::attachTo` (lines 62-66): share the other handle's payload and
mark self non-unique. -/
def BasicNode.attachTo (self n : BasicNode) : BasicNode :=
  { self with m_data := n.m_data, m_unique := false }

/-- Source: `BasicNode::takeData` (lines 86-91): move — adopt `other`'s payload
reference, reset `other`'s `m_data` to empty, and copy `other`'s uniqueness
flag.  Returns (new self, emptied other).  Note that `other.m_unique` is left
untouched by the C++ code. -/
def BasicNode.takeData (other : BasicNode) : BasicNode × BasicNode :=
  ({ m_data := other.m_data, m_unique := other.m_unique },
   { other with m_data := none })

/-- Source: `BasicNode::replaceWith` (lines 95-99): unconditionally install new data
and become unique again. -/
def BasicNode.replaceWith (self : BasicNode) (data : Option Nat) : BasicNode :=
  { self with m_data := data, m_unique := true }

/-- Source: `BasicNode::checkedReplace` (lines 104-109): if self is unique, absorb
`other`'s data directly; otherwise `replaceWith` it.  Either way `other` is
emptied.  Returns (new self, emptied other). -/
def BasicNode.checkedReplace (self other : BasicNode) : BasicNode × BasicNode :=
  (if self.unique then { self with m_data := other.m_data }
   else self.replaceWith other.m_data,
   { other with m_data := none })

/-- Source: `Detached<T>` (lines 119-132): a read-only handle holding only a shared
payload reference, no uniqueness bookkeeping. -/
structure Detached where
  payload : Option Nat
deriving DecidableEq, Repr

/-- Value observed through a detached snapshot (`Detached::operator*`). -/
def Detached.read {α : Type} (s : Store α) (d : Detached) : Option α :=
  d.payload.bind s.read

namespace Node

/-- Source: `Node<T>` value constructor (lines 139-144): construct a brand-new payload
from the value; the node is implicitly unique. -/
def new {α : Type} (s : Store α) (v : α) : Store α × BasicNode :=
  let p := s.construct v
  (p.fst, { m_data := some p.snd, m_unique := true })

/-- Source: `Node(const Node&)` (lines 146-165): always a shallow copy of `m_data`;
the new node is not unique.  The source is passed by const reference and left
untouched; we return it alongside to state that explicitly.
Returns (new node, source after). -/
def copyCtor (other : BasicNode) : BasicNode × BasicNode :=
  ({ m_data := other.m_data, m_unique := false }, other)

/-- Source: `Node(Node&&)` (line 176): `takeData(other)`.  Returns (new node, emptied
source). -/
def moveCtor (other : BasicNode) : BasicNode × BasicNode :=
  BasicNode.takeData other

/-- Source: `Node::operator=(Node&&)` (line 177): `checkedReplace(other)`.  Returns
(destination after, emptied source). -/
def moveAssign (self other : BasicNode) : BasicNode × BasicNode :=
  BasicNode.checkedReplace self other

/-- Source: `Node::get() const` (line 188): read accessor, returns the payload
pointer, never clones. -/
def getR (n : BasicNode) : Option Nat :=
  n.m_data

/-- Source: `Node::get()` non-const (lines 192-196): the copy-on-write write accessor.
If not unique, clone the current value into a brand-new payload and adopt it
(`replaceWith(construct(*r().get()))`); return the (now unique) payload
pointer.  Dereferencing an empty Node is a contract violation (spec section
7); the two fallthrough branches model that unreachable-by-contract case as
returning the current (null or dangling) pointer unchanged.
Returns (store, node, returned pointer). -/
def getW {α : Type} (s : Store α) (n : BasicNode) : Store α × BasicNode × Option Nat :=
  if n.unique then (s, n, n.m_data)
  else
    match n.m_data with
    | none => (s, n, none)
    | some i =>
      match s.read i with
      | none => (s, n, some i)
      | some v =>
        let p := s.construct v
        (p.fst, n.replaceWith (some p.snd), some p.snd)

/-- Source: `Node::operator=(U&&)` (lines 179-185): value assignment — if unique,
write the new value in place through `qget()`; otherwise replace with a
brand-new payload constructed from the value.  Writing through an empty Node
is a contract violation, modelled as a no-op. -/
def assignVal {α : Type} (s : Store α) (n : BasicNode) (u : α) : Store α × BasicNode :=
  if n.unique then
    match n.m_data with
    | some i => (s.writeAt i u, n)
    | none => (s, n)
  else
    let p := s.construct u
    (p.fst, n.replaceWith (some p.snd))

/-- Source: `Node::detach` (line 200): a `Detached` built by sharing the current
payload reference; the node itself (data and flag) is untouched — `detach`
is a const member. -/
def detach (n : BasicNode) : Detached :=
  ⟨n.m_data⟩

end Node

namespace OptNode

/-- Source: `OptNode()` default (line 236): empty data, flag at its initialiser
`true`. -/
def default : BasicNode :=
  { m_data := none, m_unique := true }

/-- Source: `OptNode(const OptNode&)` (lines 237-245): shallow copy; only a non-empty
copy is marked non-unique ("no point in making empty opt-nodes non-unique").
Returns (new node, source after). -/
def copyCtor (other : BasicNode) : BasicNode × BasicNode :=
  ({ m_data := other.m_data,
     m_unique := if other.m_data.isSome then false else true },
   other)

/-- Source: `OptNode(OptNode&&)` (line 248): `takeData(other)`. -/
def moveCtor (other : BasicNode) : BasicNode × BasicNode :=
  BasicNode.takeData other

/-- Source: `OptNode::operator=(OptNode&&)` (line 249): `checkedReplace(other)`. -/
def moveAssign (self other : BasicNode) : BasicNode × BasicNode :=
  BasicNode.checkedReplace self other

/-- Source: `OptNode(std::nullptr_t)` (line 251): nothing special to do — members at
their initialisers. -/
def ofNullptr : BasicNode :=
  { m_data := none, m_unique := true }

/-- Source: `OptNode::operator=(std::nullptr_t)` (line 252): `m_data = {}` only; the
uniqueness flag is not touched. -/
def assignNullptr (n : BasicNode) : BasicNode :=
  { n with m_data := none }

/-- Source: `OptNode(Node<T>&&)` (line 254): `takeData(other)`. -/
def ofNodeMove (other : BasicNode) : BasicNode × BasicNode :=
  BasicNode.takeData other

/-- Source: `OptNode::reset` (line 256): `m_data = {}` only; the uniqueness flag is
not touched. -/
def reset (n : BasicNode) : BasicNode :=
  { n with m_data := none }

/-- Source: `OptNode::operator bool` (line 258). -/
def toBool (n : BasicNode) : Bool :=
  n.m_data.isSome

/-- Source: `OptNode::get() const` (line 261): returns the payload pointer (null when
empty). -/
def getR (n : BasicNode) : Option Nat :=
  n.m_data

/-- Source: `OptNode::get()` non-const (lines 265-269): clone only if non-empty and
not unique; an empty OptNode yields the null pointer with no allocation. -/
def getW {α : Type} (s : Store α) (n : BasicNode) : Store α × BasicNode × Option Nat :=
  if n.m_data.isSome && !n.unique then
    match n.m_data with
    | none => (s, n, none)
    | some i =>
      match s.read i with
      | none => (s, n, some i)
      | some v =>
        let p := s.construct v
        (p.fst, n.replaceWith (some p.snd), some p.snd)
  else (s, n, n.m_data)

/-- Source: `OptNode::detach` (line 273). -/
def detach (n : BasicNode) : Detached :=
  ⟨n.m_data⟩

end OptNode

/-- Modelled from the spec: `kuzco::Root<T>` (spec sections 3 and 4.4).  Only
a forward declaration of `Root` appears under `src/`; its definition
(`beginTransaction`, `endTransaction`, `detach`, `detachedPayload`) is
missing.  Per the spec, the Root owns one `Node` (the working handle) and the
currently published snapshot reference (`detachedPayload` in `Session.hpp`
names this published payload).  `beginTransaction` obtains the working
pointer via the Node's copy-on-write write accessor; since the published
snapshot reference always shares the node's payload while idle, the payload
is shared at begin and the accessor is entered with the node marked
non-unique, so a private working clone is produced.  `endTransaction(true)`
publishes the working payload (no further copy); `endTransaction(false)`
discards the working copy, restoring the previously published snapshot as
canonical (spec section 2). -/
structure Root where
  m_root : BasicNode
  m_detachedRoot : Option Nat
deriving DecidableEq, Repr

/-- Modelled from the spec: Root construction with an initial value (spec
section 3: "created with an initial value"; the published snapshot is the
initial payload). -/
def Root.init {α : Type} (s : Store α) (v : α) : Store α × Root :=
  let p := Node.new s v
  (p.fst, { m_root := p.snd, m_detachedRoot := p.snd.m_data })

/-- Modelled from the spec: `Root<T>::beginTransaction` (spec section 4.4) —
obtain a working pointer via the Node's write accessor, triggering
copy-on-write against the currently published payload, which is shared (at
least) with the Root's own published snapshot reference.
Returns (store, root, working pointer). -/
def Root.beginTransaction {α : Type} (s : Store α) (r : Root) : Store α × Root × Option Nat :=
  let shared := { r.m_root with m_unique := false }
  let q := Node.getW s shared
  (q.fst, { r with m_root := q.snd.fst }, q.snd.snd)

/-- Modelled from the spec: `Root<T>::endTransaction` (spec section 4.4) —
on `store = true` the working copy becomes the new published value (no
further copy); on `store = false` the working copy is discarded and the
previously published snapshot is restored as canonical. -/
def Root.endTransaction {α : Type} (s : Store α) (r : Root) (store : Bool) : Store α × Root :=
  if store then (s, { r with m_detachedRoot := r.m_root.m_data })
  else (s, { r with m_root := { m_data := r.m_detachedRoot, m_unique := false } })

/-- Modelled from the spec: `Root<T>::detachedPayload` — the currently
published payload reference (used by `StateRoot` via `using
Root<T>::detachedPayload`). -/
def Root.detachedPayload (r : Root) : Option Nat :=
  r.m_detachedRoot

/-- Modelled from the spec: `Root<T>::detach` — an immutable snapshot handle
sharing the currently published payload (used by `StateRoot` via `using
Root<T>::detach`). -/
def Root.detach (r : Root) : Detached :=
  ⟨r.m_detachedRoot⟩

/-- Source: `StateRoot<T>::endTransaction` (src/Session.hpp lines 43-49): forward to
`Root<T>::endTransaction(store)`, then, only when the transaction was stored,
notify the subscribers through `Publisher<StateRoot<T>>::notifySubscribers(*this)`
— synchronously, on the same call.  The `Publisher` collaborator is not under
`src/`; per spec section 6 it is an opaque "publish to subscribers" call
receiving the Root, so notifications are modelled as the list of Root values
passed to it during the call (in order). -/
def StateRoot.endTransaction {α : Type} (s : Store α) (r : Root) (store : Bool) :
    Store α × Root × List Root :=
  let q := Root.endTransaction s r store
  if store then (q.fst, q.snd, [q.snd]) else (q.fst, q.snd, [])

/-- Source: `StateRoot<T>::Transaction` state (src/Session.hpp lines 9-34): the raw
working pointer `m_ptr` and the `m_cancelled` flag (initially false). -/
structure Transaction where
  m_ptr : Option Nat
  m_cancelled : Bool
deriving DecidableEq, Repr

/-- Source: `Transaction(StateRoot&)` (src/Session.hpp lines 11-14): `m_ptr` is the
pointer returned by `r.beginTransaction()`; `m_cancelled` starts false. -/
def Transaction.start {α : Type} (s : Store α) (r : Root) : Store α × Root × Transaction :=
  let q := Root.beginTransaction s r
  (q.fst, q.snd.fst, { m_ptr := q.snd.snd, m_cancelled := false })

/-- Source: `Transaction::cancel` (src/Session.hpp line 21). -/
def Transaction.cancel (t : Transaction) : Transaction :=
  { t with m_cancelled := true }

/-- A mutation `*t = v` through the scope's dereference (src/Session.hpp line
24): `operator*` returns `*m_ptr`, so the assignment writes the store at the
cached working pointer.  Writing through a null pointer is a contract
violation, modelled as a no-op. -/
def Transaction.derefWrite {α : Type} (s : Store α) (t : Transaction) (v : α) : Store α :=
  match t.m_ptr with
  | some p => s.writeAt p v
  | none => s

/-- Source: `Transaction::~Transaction` (src/Session.hpp lines 26-29): computes
`store = !m_cancelled && !std::uncaught_exceptions()` and calls
`m_root.endTransaction(store)`.  The unwinding test is modelled as the
boolean `uncaughtExceptions`. -/
def Transaction.dtor {α : Type} (s : Store α) (r : Root) (t : Transaction)
    (uncaughtExceptions : Bool) : Store α × Root × List Root :=
  let store := !t.m_cancelled && !uncaughtExceptions
  StateRoot.endTransaction s r store

/-- The whole transaction-scope scenario of spec section 8: open a scope on
the root, assign `v1` through the scope's dereference, optionally call
`cancel()`, and let the scope end (with `uncaughtExceptions` telling whether
the scope is unwinding).  Returns (store, root, notifications). -/
def runScope {α : Type} (s : Store α) (r : Root) (v1 : α)
    (cancel uncaughtExceptions : Bool) : Store α × Root × List Root :=
  let q := Transaction.start s r
  let s2 := Transaction.derefWrite q.fst q.snd.snd v1
  let t := if cancel then (q.snd.snd).cancel else q.snd.snd
  Transaction.dtor s2 q.snd.fst t uncaughtExceptions

/-- Of the spec's words (section 4.4): mutations during `InTransaction` go
through the working pointer's normal dereference, "which is the same
copy-on-write-protected accessor as section 4.2" — so the spec-side scope
dereference invokes the Node's non-const `get()` on the root's working node
each time. -/
def specScopeDeref {α : Type} (s : Store α) (r : Root) : Store α × Root × Option Nat :=
  let q := Node.getW s r.m_root
  (q.fst, { r with m_root := q.snd.fst }, q.snd.snd)

/-- The code's scope dereference (src/Session.hpp lines 23-24): `operator*`
and `operator->` return the cached `m_ptr`, leaving store and root
untouched. -/
def scopeDeref {α : Type} (s : Store α) (r : Root) (t : Transaction) :
    Store α × Root × Option Nat :=
  (s, r, t.m_ptr)

/- Helper lemmas about the payload store. -/

theorem Store.lt_of_read_some {α : Type} {s : Store α} {i : Nat} {v : α}
    (h : s.read i = some v) : i < s.heap.length := by
  obtain ⟨hn, _⟩ := List.getElem?_eq_some.1 h
  exact hn

theorem Store.read_construct_self {α : Type} (s : Store α) (v : α) :
    (s.construct v).fst.read (s.construct v).snd = some v := by
  simp [Store.construct, Store.read, List.getElem?_concat_length s.heap v]

theorem Store.read_construct_ne {α : Type} (s : Store α) (v : α) {k : Nat}
    (h : k ≠ s.heap.length) : (s.construct v).fst.read k = s.read k := by
  rcases Nat.lt_or_ge k s.heap.length with hk | hk
  · simpa [Store.construct, Store.read] using List.getElem?_append_left hk
  · have hk' : s.heap.length < k := lt_of_le_of_ne hk (fun e => h e.symm)
    have h1 : (s.heap ++ [v])[k]? = none := by
      apply List.getElem?_eq_none
      simpa using hk'
    have h2 : s.heap[k]? = none := List.getElem?_eq_none hk
    simp [Store.construct, Store.read, h1, h2]

theorem Store.read_writeAt_self {α : Type} {s : Store α} {i : Nat} (v : α)
    (h : i < s.heap.length) : (s.writeAt i v).read i = some v := by
  simpa [Store.writeAt, Store.read] using List.getElem?_set_eq_of_lt v h

theorem Store.read_writeAt_ne {α : Type} (s : Store α) {i k : Nat} (v : α)
    (h : i ≠ k) : (s.writeAt i v).read k = s.read k := by
  simp [Store.writeAt, Store.read, List.getElem?_set_ne h]

/-- C6.  Copy shares, never deep-copies: `Node N2 = N` makes `N2` reference
the same payload identity as `N` (the copy constructor is store-free, so no
clone is allocated at all), `N2.unique() == false`, and the source `N` —
payload and uniqueness flag — is unaffected by being copied from. -/
theorem copy_shares_no_deep_copy (n : BasicNode) :
    (Node.copyCtor n).fst.m_data = n.m_data
    ∧ (Node.copyCtor n).fst.unique = false
    ∧ (Node.copyCtor n).snd = n :=
  ⟨rfl, rfl, rfl⟩

/-- C7.  Move empties source: after `Node N2 = move(N)` the source holds no
payload, and `N2` holds exactly the payload reference and uniqueness flag
value that `N` held immediately before the move. -/
theorem move_empties_source (n : BasicNode) :
    (Node.moveCtor n).snd.m_data = none
    ∧ (Node.moveCtor n).fst.m_data = n.m_data
    ∧ (Node.moveCtor n).fst.m_unique = n.m_unique :=
  ⟨rfl, rfl, rfl⟩

/-- C9.  Move-assignment between owning handles (`Node::operator=(Node&&)`
and `OptNode::operator=(OptNode&&)`, both `checkedReplace`): afterwards the
destination has `unique() == true` and holds the source's payload, and the
source is left empty — with no condition on the source's uniqueness, so this
holds in particular when the moved-from handle was non-unique and its payload
is still shared with other live handles. -/
theorem move_assign_dest_unique_source_empty (a b : BasicNode) :
    (Node.moveAssign a b).fst.unique = true
    ∧ (Node.moveAssign a b).fst.m_data = b.m_data
    ∧ (Node.moveAssign a b).snd.m_data = none
    ∧ OptNode.moveAssign a b = Node.moveAssign a b := by
  cases h : a.m_unique <;>
    simp [Node.moveAssign, OptNode.moveAssign, BasicNode.checkedReplace,
      BasicNode.replaceWith, BasicNode.unique, h]

/-- C10.  On an empty OptNode the non-const write accessor `get()` returns
the null pointer, allocates nothing and leaves both the store and the handle
unchanged, and the const read accessor likewise returns the null pointer. -/
theorem optnode_empty_get_total {α : Type} (s : Store α) (n : BasicNode)
    (h : n.m_data = none) :
    OptNode.getW s n = (s, n, none) ∧ OptNode.getR n = none := by
  simp [OptNode.getW, OptNode.getR, h]

/-- C10 witness: the accessors evaluated on a default-constructed OptNode
over an empty store. -/
theorem optnode_empty_get_total_witness :
    OptNode.getW (Store.mk ([] : List Nat)) OptNode.default
        = (Store.mk [], OptNode.default, none)
    ∧ OptNode.getR OptNode.default = none :=
  optnode_empty_get_total (Store.mk ([] : List Nat)) OptNode.default rfl

/-- C8 counterexample: the claim fails on the code.  Build `a` as a non-empty
OptNode (moved from a fresh `Node` holding 0), copy it into `b` (so `b` is
non-unique), then `b.reset()`: the result is empty but `reset` only clears
`m_data`, leaving the stale flag, so `unique()` is `false` — refuting "every
OptNode that holds no Payload has unique() == true ... preserved by ...
reset()". -/
theorem empty_optnode_unique_counterexample :
    (OptNode.reset
        (OptNode.copyCtor
          (OptNode.ofNodeMove (Node.new (Store.mk ([] : List Nat)) 0).snd).fst).fst).m_data
      = none
    ∧ (OptNode.reset
        (OptNode.copyCtor
          (OptNode.ofNodeMove (Node.new (Store.mk ([] : List Nat)) 0).snd).fst).fst).unique
      = false := by
  decide

/-- C8 amended.  Empty OptNodes produced by default construction,
construction from `nullptr`, and copy construction (of an empty source) have
`unique() == true`; but `reset()`, assignment from `nullptr`, and the
emptying of a move's source (`takeData`) merely clear `m_data` and preserve
the handle's previous uniqueness flag rather than resetting it — so an
emptied handle keeps `unique() == false` when it was non-unique at the moment
it was emptied. -/
theorem empty_optnode_uniqueness_amended :
    (OptNode.default.m_data = none ∧ OptNode.default.unique = true)
    ∧ (OptNode.ofNullptr.m_data = none ∧ OptNode.ofNullptr.unique = true)
    ∧ (∀ n : BasicNode, (OptNode.copyCtor n).fst.unique = !(OptNode.toBool n))
    ∧ (∀ n : BasicNode,
        (OptNode.reset n).m_data = none ∧ (OptNode.reset n).m_unique = n.m_unique)
    ∧ (∀ n : BasicNode,
        (OptNode.assignNullptr n).m_data = none
        ∧ (OptNode.assignNullptr n).m_unique = n.m_unique)
    ∧ (∀ n : BasicNode,
        (BasicNode.takeData n).snd.m_data = none
        ∧ (BasicNode.takeData n).snd.m_unique = n.m_unique) := by
  refine ⟨⟨rfl, rfl⟩, ⟨rfl, rfl⟩, ?_, fun n => ⟨rfl, rfl⟩, fun n => ⟨rfl, rfl⟩,
    fun n => ⟨rfl, rfl⟩⟩
  intro n
  cases h : n.m_data <;>
    simp [OptNode.copyCtor, OptNode.toBool, BasicNode.unique, h]

/-- C4.  Copy-on-write at the write accessor: for a non-empty Node, if
`unique()` is true then `get()` allocates nothing and keeps the same payload
identity and store; if `unique()` is false then `get()` allocates a brand-new
payload (an identity different from the current one) holding a clone of the
current value, the node becomes unique on it, and every other payload cell —
in particular the one observed by the handles that shared the original — is
unaltered. -/
theorem cow_write_accessor {α : Type} (s : Store α) (n : BasicNode) (i : Nat) (v : α)
    (hd : n.m_data = some i) (hv : s.read i = some v) :
    (n.unique = true → Node.getW s n = (s, n, some i))
    ∧ (n.unique = false →
        (Node.getW s n).snd.snd = some s.heap.length
        ∧ (Node.getW s n).snd.snd ≠ some i
        ∧ (Node.getW s n).snd.fst
            = { m_data := some s.heap.length, m_unique := true }
        ∧ ((Node.getW s n).fst).read s.heap.length = some v
        ∧ ∀ k, k ≠ s.heap.length → ((Node.getW s n).fst).read k = s.read k) := by
  have hi : i < s.heap.length := Store.lt_of_read_some hv
  constructor
  · intro h
    simp [Node.getW, h, hd]
  · intro h
    have hfresh := Store.read_construct_self s v
    refine ⟨?_, ?_, ?_, ?_, ?_⟩
    · simp [Node.getW, h, hd, hv, Store.construct]
    · simp [Node.getW, h, hd, hv, Store.construct]
      exact Nat.ne_of_gt hi
    · simp [Node.getW, h, hd, hv, Store.construct, BasicNode.replaceWith]
    · simp only [Node.getW, h, hd, hv]
      simpa using hfresh
    · intro k hk
      simp only [Node.getW, h, hd, hv]
      simpa using Store.read_construct_ne s v hk

/-- C4 witness: a non-unique node over a one-cell store holding 7; `get()`
returns the fresh identity 1 whose cell holds the clone 7, and cell 0 is
unaltered. -/
theorem cow_write_accessor_witness :
    (Node.getW (Store.mk [(7 : Nat)]) (BasicNode.mk (some 0) false)).snd.snd = some 1
    ∧ ((Node.getW (Store.mk [(7 : Nat)]) (BasicNode.mk (some 0) false)).fst).read 1
        = some 7
    ∧ ((Node.getW (Store.mk [(7 : Nat)]) (BasicNode.mk (some 0) false)).fst).read 0
        = Store.read (Store.mk [(7 : Nat)]) 0 := by
  have h :=
    (cow_write_accessor (Store.mk [(7 : Nat)]) (BasicNode.mk (some 0) false) 0 7
      rfl rfl).2 rfl
  exact ⟨h.1, h.2.2.2.1, h.2.2.2.2 0 (by decide)⟩

/-- C1 counterexample: the claim fails on the code.  A freshly constructed
Node holding 0 has `m_unique = true`; `detach()` shares the payload but does
not clear the flag, and the uniqueness check consults the flag, not the share
count — so the subsequent write `N = 1` mutates the shared payload in place,
and the detached snapshot, which read `some 0` at detach time, reads `some 1`
after the mutation: mutating N changed `*d`. -/
theorem detach_isolation_counterexample :
    Detached.read (Node.new (Store.mk ([] : List Nat)) 0).fst
        (Node.detach (Node.new (Store.mk ([] : List Nat)) 0).snd) = some 0
    ∧ Detached.read
        (Node.assignVal (Node.new (Store.mk ([] : List Nat)) 0).fst
          (Node.new (Store.mk ([] : List Nat)) 0).snd 1).fst
        (Node.detach (Node.new (Store.mk ([] : List Nat)) 0).snd) = some 1 := by
  decide

/-- C1 amended.  Detach isolation holds for writes performed while the source
handle is non-unique: given `d = N.detach()`, a subsequent write through N —
whether by value assignment (`N = v`) or through the write accessor followed
by an in-place store at the returned pointer — leaves `*d` unchanged when
`N.unique() == false` at the time of the write (e.g. N obtained by copy).
`detach()` itself never clears the uniqueness flag, and the uniqueness check
consults the flag rather than the share count, so a write through a
still-unique N mutates the now-shared payload in place and `*d` changes (see
the counterexample). -/
theorem detach_isolation_nonunique {α : Type} (s : Store α) (n : BasicNode)
    (i : Nat) (w v : α) (hu : n.unique = false) (hd : n.m_data = some i)
    (hv : s.read i = some w) :
    Detached.read (Node.assignVal s n v).fst (Node.detach n)
        = Detached.read s (Node.detach n)
    ∧ Detached.read
        (((Node.getW s n).fst).writeAt (((Node.getW s n).snd.snd).getD 0) v)
        (Node.detach n)
        = Detached.read s (Node.detach n) := by
  have hi : i < s.heap.length := Store.lt_of_read_some hv
  have hne : i ≠ s.heap.length := Nat.ne_of_lt hi
  constructor
  · simp only [Node.assignVal, hu, BasicNode.unique, Node.detach, Detached.read, hd,
      Option.bind_eq_bind, Option.some_bind]
    have hb : n.m_unique = false := hu
    simp [hb, Store.read_construct_ne s v hne]
  · simp only [Node.getW, hu, hd, hv, Node.detach, Detached.read,
      Option.bind_eq_bind, Option.some_bind]
    have hwr :
        (((s.construct w).fst).writeAt (s.construct w).snd v).read i
          = ((s.construct w).fst).read i :=
      Store.read_writeAt_ne (s.construct w).fst v (fun e => hne e.symm)
    simpa [Store.construct, hv] using
      hwr.trans (Store.read_construct_ne s w hne)

/-- C1 amended witness: a non-unique node over a one-cell store holding 5;
both write paths leave the detached read at `some 5`. -/
theorem detach_isolation_nonunique_witness :
    Detached.read
        (Node.assignVal (Store.mk [(5 : Nat)]) (BasicNode.mk (some 0) false) 9).fst
        (Node.detach (BasicNode.mk (some 0) false))
      = Detached.read (Store.mk [(5 : Nat)]) (Node.detach (BasicNode.mk (some 0) false))
    ∧ Detached.read
        (((Node.getW (Store.mk [(5 : Nat)]) (BasicNode.mk (some 0) false)).fst).writeAt
          (((Node.getW (Store.mk [(5 : Nat)]) (BasicNode.mk (some 0) false)).snd.snd).getD 0)
          9)
        (Node.detach (BasicNode.mk (some 0) false))
      = Detached.read (Store.mk [(5 : Nat)]) (Node.detach (BasicNode.mk (some 0) false)) :=
  detach_isolation_nonunique (Store.mk [(5 : Nat)]) (BasicNode.mk (some 0) false)
    0 5 9 rfl rfl rfl

/-- C5.  During an in-flight transaction scope, the scope's dereference —
which returns the cached working pointer `m_ptr` — is equivalent to invoking
the Node's non-const `get()` (the copy-on-write-protected accessor, with its
uniqueness check and clone-if-shared behaviour): right after
`Transaction.start`, the spec-side dereference `specScopeDeref` (which calls
`Node.getW` on the root's working node) returns exactly the cached pointer
with no clone, no store change and no root change, i.e. it coincides with the
code's `scopeDeref`.  The accessor's uniqueness check is executed, and takes
the no-clone branch because `beginTransaction` left the working node unique
on a private payload. -/
theorem scope_deref_refines_getW {α : Type} (s : Store α) (r : Root) (i : Nat)
    (v : α) (hd : r.m_root.m_data = some i) (hv : s.read i = some v) :
    specScopeDeref (Transaction.start s r).fst ((Transaction.start s r).snd.fst)
      = scopeDeref (Transaction.start s r).fst ((Transaction.start s r).snd.fst)
          ((Transaction.start s r).snd.snd) := by
  simp [Transaction.start, Root.beginTransaction, Node.getW, BasicNode.unique,
    hd, hv, specScopeDeref, scopeDeref, BasicNode.replaceWith, Store.construct]

/-- C5 witness: a root over a one-cell store holding 5. -/
theorem scope_deref_refines_getW_witness :
    specScopeDeref
        (Transaction.start (Store.mk [(5 : Nat)])
          (Root.mk (BasicNode.mk (some 0) true) (some 0))).fst
        ((Transaction.start (Store.mk [(5 : Nat)])
          (Root.mk (BasicNode.mk (some 0) true) (some 0))).snd.fst)
      = scopeDeref
          (Transaction.start (Store.mk [(5 : Nat)])
            (Root.mk (BasicNode.mk (some 0) true) (some 0))).fst
          ((Transaction.start (Store.mk [(5 : Nat)])
            (Root.mk (BasicNode.mk (some 0) true) (some 0))).snd.fst)
          ((Transaction.start (Store.mk [(5 : Nat)])
            (Root.mk (BasicNode.mk (some 0) true) (some 0))).snd.snd) :=
  scope_deref_refines_getW (Store.mk [(5 : Nat)])
    (Root.mk (BasicNode.mk (some 0) true) (some 0)) 0 5 rfl rfl

/-- C2.  Transaction commit visibility: with the root idle on published
payload `i` holding `v0`, open a scope, assign `v1` through it, and let the
scope end normally (not cancelled, not unwinding): a snapshot detached from
the root afterwards reads `v1`, and the subscriber collaborator is notified
exactly once — the notification list produced synchronously inside
`StateRoot::endTransaction` is exactly the singleton carrying the post-commit
root. -/
theorem transaction_commit_visibility {α : Type} (s : Store α) (r : Root)
    (i : Nat) (v0 v1 : α) (hd : r.m_root.m_data = some i)
    (hp : r.m_detachedRoot = some i) (hv : s.read i = some v0) :
    Detached.read (runScope s r v1 false false).fst
        (Root.detach (runScope s r v1 false false).snd.fst) = some v1
    ∧ (runScope s r v1 false false).snd.snd
        = [(runScope s r v1 false false).snd.fst] := by
  have hL : s.heap.length < ((s.construct v0).fst).heap.length := by
    simp [Store.construct]
  have hread :
      (((s.construct v0).fst).writeAt s.heap.length v1).read s.heap.length
        = some v1 := Store.read_writeAt_self v1 hL
  constructor
  · simp only [runScope, Transaction.start, Root.beginTransaction, Node.getW,
      BasicNode.unique, hd, hv, Transaction.derefWrite, Transaction.dtor,
      StateRoot.endTransaction, Root.endTransaction, Root.detach,
      Detached.read, BasicNode.replaceWith]
    simpa [Store.construct] using hread
  · simp [runScope, Transaction.start, Root.beginTransaction, Node.getW,
      BasicNode.unique, hd, hv, Transaction.derefWrite, Transaction.dtor,
      StateRoot.endTransaction, Root.endTransaction, BasicNode.replaceWith]

/-- C2 witness: the end-to-end example of spec section 8 — a root published
at 5, `*t = 10`, commit: the detached snapshot reads 10 and the subscriber
fires once with the post-commit root. -/
theorem transaction_commit_visibility_witness :
    Detached.read
        (runScope (Store.mk [(5 : Nat)])
          (Root.mk (BasicNode.mk (some 0) true) (some 0)) 10 false false).fst
        (Root.detach
          (runScope (Store.mk [(5 : Nat)])
            (Root.mk (BasicNode.mk (some 0) true) (some 0)) 10 false false).snd.fst)
      = some 10
    ∧ (runScope (Store.mk [(5 : Nat)])
        (Root.mk (BasicNode.mk (some 0) true) (some 0)) 10 false false).snd.snd
      = [(runScope (Store.mk [(5 : Nat)])
          (Root.mk (BasicNode.mk (some 0) true) (some 0)) 10 false false).snd.fst] :=
  transaction_commit_visibility (Store.mk [(5 : Nat)])
    (Root.mk (BasicNode.mk (some 0) true) (some 0)) 0 5 10 rfl rfl rfl

/-- C3.  Transaction rollback atomicity: with the root idle on published
payload `i` holding `v0`, open a scope, assign `v1` through it, and let the
scope end after `cancel()` was called or while unwinding: a snapshot detached
from the root afterwards reads exactly `v0` (the working clone absorbed the
mutation, the published payload is untouched), and the subscriber
collaborator is not notified. -/
theorem transaction_rollback_atomicity {α : Type} (s : Store α) (r : Root)
    (i : Nat) (v0 v1 : α) (cancel unwinding : Bool)
    (habort : cancel = true ∨ unwinding = true) (hd : r.m_root.m_data = some i)
    (hp : r.m_detachedRoot = some i) (hv : s.read i = some v0) :
    Detached.read (runScope s r v1 cancel unwinding).fst
        (Root.detach (runScope s r v1 cancel unwinding).snd.fst) = some v0
    ∧ (runScope s r v1 cancel unwinding).snd.snd = [] := by
  have hi : i < s.heap.length := Store.lt_of_read_some hv
  have hne : i ≠ s.heap.length := Nat.ne_of_lt hi
  have hread :
      (((s.construct v0).fst).writeAt s.heap.length v1).read i = some v0 := by
    have h1 := Store.read_writeAt_ne (s.construct v0).fst v1
      (fun e => hne e.symm)
    have h2 := Store.read_construct_ne s v0 hne
    simpa [Store.construct] using (h1.trans h2).trans hv
  have hstore : (!(if cancel then true else false) && !unwinding) = false := by
    rcases habort with h | h <;> cases cancel <;> cases unwinding <;>
      simp_all
  constructor
  · simp only [runScope, Transaction.start, Root.beginTransaction, Node.getW,
      BasicNode.unique, hd, hv, Transaction.derefWrite, Transaction.dtor,
      Transaction.cancel, StateRoot.endTransaction, Root.endTransaction,
      Root.detach, Detached.read, BasicNode.replaceWith, hp]
    cases cancel <;> cases unwinding <;> simp_all [Store.construct, hread, hp]
  · simp only [runScope, Transaction.start, Root.beginTransaction, Node.getW,
      BasicNode.unique, hd, hv, Transaction.derefWrite, Transaction.dtor,
      Transaction.cancel, StateRoot.endTransaction, Root.endTransaction,
      BasicNode.replaceWith]
    cases cancel <;> cases unwinding <;> simp_all

/-- C3 witness: the end-to-end example of spec section 8 — a root published
at 5, `*t = 20`, `t.cancel()`: the snapshot still reads 5 and the subscriber
does not fire. -/
theorem transaction_rollback_atomicity_witness :
    Detached.read
        (runScope (Store.mk [(5 : Nat)])
          (Root.mk (BasicNode.mk (some 0) true) (some 0)) 20 true false).fst
        (Root.detach
          (runScope (Store.mk [(5 : Nat)])
            (Root.mk (BasicNode.mk (some 0) true) (some 0)) 20 true false).snd.fst)
      = some 5
    ∧ (runScope (Store.mk [(5 : Nat)])
        (Root.mk (BasicNode.mk (some 0) true) (some 0)) 20 true false).snd.snd
      = [] :=
  transaction_rollback_atomicity (Store.mk [(5 : Nat)])
    (Root.mk (BasicNode.mk (some 0) true) (some 0)) 0 5 20 true false
    (Or.inl rfl) rfl rfl rfl

end Kuzco
